import Mathlib

/-!
Shallow embedding of the invoice-validation report renderer
(frontend source: api.js, ChatWindow / UploadModal / ValidationDetailView
components) and of the upload/chat state machine, together with
theorems settling the specification claims.
-/

namespace Mocko

/-- JavaScript runtime values as they occur in validation payloads:
`undefined`, `null`, booleans, numbers (payload numbers are modelled as
integers), strings, arrays and plain objects (ordered key/value lists,
first binding wins on lookup, mirroring JS object literals used here). -/
inductive JSValue where
  | undefined : JSValue
  | null : JSValue
  | bool (b : Bool) : JSValue
  | num (n : Int) : JSValue
  | str (s : String) : JSValue
  | arr (elems : List JSValue) : JSValue
  | obj (fields : List (String × JSValue)) : JSValue
deriving Repr

/-- JS truthiness for the value domain above (NaN does not arise from
JSON payloads, so numbers are falsy exactly when zero). -/
def jsTruthy : JSValue → Bool
  | .undefined => false
  | .null => false
  | .bool b => b
  | .num n => n != 0
  | .str s => s != ""
  | .arr _ => true
  | .obj _ => true

/-- Property access `v[key]` as the renderer exercises it: plain objects
yield the first binding for the key or `undefined`; every other value
yields `undefined` (the dotted field names in use never collide with
String or Array prototype members, so primitive property access always
comes back `undefined`).  Source: `acc[part]` in api.js line 1286 and
`item[key]` in line 1366. -/
def getProp : JSValue → String → JSValue
  | .obj fields, key =>
    match fields.lookup key with
    | some v => v
    | none => .undefined
  | _, _ => .undefined

/-- Property access in full JS semantics, where reading a property of
`undefined` or of `null` throws a TypeError.  Used to state that the
resolver never throws. -/
def getPropE : JSValue → String → Except String JSValue
  | .undefined, _ => .error "TypeError: cannot read properties of undefined"
  | .null, _ => .error "TypeError: cannot read properties of null"
  | v, key => .ok (getProp v key)

/-- Helper for `splitDot`, walking the character list and collecting
the current segment in reverse. -/
def splitDotAux : List Char → List Char → List String
  | [], acc => [String.mk acc.reverse]
  | c :: cs, acc =>
    if c = '.' then String.mk acc.reverse :: splitDotAux cs []
    else splitDotAux cs (c :: acc)

/-- `path.split('.')` of JS: split on every dot, keeping empty
segments, so that the empty string splits to a single empty segment.
Implemented by structural recursion over the characters so concrete
paths evaluate inside proofs. -/
def splitDot (s : String) : List String :=
  splitDotAux s.toList []

/-- One step of the `reduce` inside `getNestedValue` (api.js line 1286):
`acc && acc[part]` returns a falsy accumulator unchanged and otherwise
reads the property. -/
def resolveStep (acc : JSValue) (part : String) : JSValue :=
  if jsTruthy acc then getProp acc part else acc

/-- Field Resolver, api.js lines 1285 to 1287:
`path.split('.').reduce((acc, part) => acc && acc[part], obj)`. -/
def getNestedValue (obj : JSValue) (path : String) : JSValue :=
  (splitDot path).foldl resolveStep obj

/-- The same step executed in the exception-aware semantics. -/
def resolveStepE (acc : Except String JSValue) (part : String) :
    Except String JSValue :=
  match acc with
  | .error e => .error e
  | .ok v => if jsTruthy v then getPropE v part else .ok v

/-- The resolver run in the exception-aware semantics; comparing it with
`getNestedValue` shows the resolver never throws. -/
def getNestedValueE (obj : JSValue) (path : String) : Except String JSValue :=
  (splitDot path).foldl resolveStepE (.ok obj)

/-- Modelled from the spec wording (sections 4.1 and 8), for comparison
with the code-derived resolver: walk the segments through nested
mappings, failing as soon as a segment is not bound in a mapping. -/
def specWalk : JSValue → List String → Option JSValue
  | v, [] => some v
  | .obj fields, k :: rest =>
    match fields.lookup k with
    | some w => specWalk w rest
    | none => none
  | _, _ :: _ => none

/-- The absence condition exactly as the specification words it: some
segment of the path does not exist as a mapping entry, or the exact
leaf is the undefined value. -/
def specAbsentSegs (d : JSValue) (segs : List String) : Bool :=
  match specWalk d segs with
  | none => true
  | some .undefined => true
  | some _ => false

/-- Absence condition of the specification applied to a dotted path. -/
def specAbsent (d : JSValue) (path : String) : Bool :=
  specAbsentSegs d (splitDot path)

/-- Result of the Field Status Evaluator (api.js lines 1289 to 1297). -/
structure FieldStatus where
  isValid : Bool
  message : String
deriving DecidableEq, Repr

/-- Cross-document annotation stored under a field path of
`mismatched_fields`. -/
structure PoMismatch where
  invoice_value : JSValue
  po_value : JSValue
deriving Repr

/-- Field-level entry of an `item_value_mismatch` record. -/
structure ItemMismatch where
  invoice_value : JSValue
  po_value : JSValue
  issue : Option String
deriving Repr

/-- One record of `line_item_details`, tagged by its `type` string. -/
inductive LineItemDetail where
  | count_mismatch (message : String)
  | extra_invoice_item (item_index : Nat) (invoice_item : JSValue)
  | extra_po_item (item_index : Nat) (po_item : JSValue)
  | item_value_mismatch (item_index : Nat)
      (mismatches : List (String × ItemMismatch))
deriving Repr

/-- The `mismatched_fields` object: plain field entries map a path to a
value pair, and the reserved key `line_item_details` (split out here as
its own member) holds the line-item records. -/
structure MismatchedFields where
  entries : List (String × PoMismatch)
  line_item_details : Option (List LineItemDetail)
deriving Repr

/-- `po_comparison_results`; every member may be absent, mirroring the
optional chaining used throughout the renderer. -/
structure PoComparisonResults where
  overall_match : Option Bool
  mismatched_fields : Option MismatchedFields
  missing_in_invoice : Option (List String)
  missing_in_po : Option (List String)
deriving Repr

/-- Truthiness filter the evaluator applies to `issues &&
issues[fieldPath]`: an absent issues object is skipped, and so is an
entry bound to the empty string, the empty string being falsy. -/
def lookupTruthyMessage (issues : Option (List (String × String)))
    (fieldPath : String) : Option String :=
  match issues with
  | none => none
  | some entries =>
    match entries.lookup fieldPath with
    | some msg => if msg == "" then none else some msg
    | none => none

/-- Field Status Evaluator, api.js lines 1289 to 1297.  The source
closes over `po_comparison_results`; the closure argument is passed
explicitly here.  The function receives no PO-side flag, so the
missing-in-invoice check fires for whichever row asks. -/
def getFieldStatus (po_comparison_results : Option PoComparisonResults)
    (fieldPath : String) (issues : Option (List (String × String))) :
    FieldStatus :=
  match lookupTruthyMessage issues fieldPath with
  | some msg => ⟨false, msg⟩
  | none =>
    match po_comparison_results with
    | some pc =>
      match pc.missing_in_invoice with
      | some mii =>
        if fieldPath ∈ mii then
          ⟨false, "Missing in invoice (as per PO comparison)."⟩
        else ⟨true, "Present and valid"⟩
      | none => ⟨true, "Present and valid"⟩
    | none => ⟨true, "Present and valid"⟩

/-- Shape of the rendered value cell of a field row (api.js lines 1311
to 1318): `null` and the empty string show the "Not Extracted / N/A"
marker, object-typed values are pretty printed as a JSON block, and
every other value is shown through `String(value)`. -/
inductive ValueDisplay where
  | notAvailable
  | jsonBlock (v : JSValue)
  | text (s : String)
deriving Repr

/-- `String(value)` on the value domain.  The array and object cases
never reach the text branch of the renderer, because the object-typed
branch is taken first. -/
def jsDisplayString : JSValue → String
  | .undefined => "undefined"
  | .null => "null"
  | .bool b => if b then "true" else "false"
  | .num n => toString n
  | .str s => s
  | .arr _ => ""
  | .obj _ => "[object Object]"

/-- Whether `typeof value` is the string "object" for a value the null
test already passed over. -/
def isObjectType : JSValue → Bool
  | .arr _ => true
  | .obj _ => true
  | _ => false

/-- The test `value === null || value === ""` guarding the
"Not Extracted / N/A" marker. -/
def isNullOrEmptyString : JSValue → Bool
  | .null => true
  | .str s => s == ""
  | _ => false

/-- Value cell of a field row, api.js lines 1311 to 1318. -/
def renderValueDisplay (v : JSValue) : ValueDisplay :=
  if isNullOrEmptyString v then .notAvailable
  else if isObjectType v then .jsonBlock v
  else .text (jsDisplayString v)

/-- Whether a value cell shows the "Not Extracted / N/A" marker. -/
def showsNotAvailable : ValueDisplay → Bool
  | .notAvailable => true
  | _ => false

/-- The cross-document annotation lookup of api.js lines 1303 to 1306:
`po_comparison_results?.mismatched_fields &&
po_comparison_results.mismatched_fields[fieldPath]`.  Entries are
objects and hence truthy whenever present. -/
def poMismatchLookup (po_comparison_results : Option PoComparisonResults)
    (fieldPath : String) : Option PoMismatch :=
  match po_comparison_results with
  | some pc =>
    match pc.mismatched_fields with
    | some mf => mf.entries.lookup fieldPath
    | none => none
  | none => none

/-- Pure projection of one field row produced by `renderField`
(api.js lines 1299 to 1335). -/
structure FieldRow where
  fieldPath : String
  label : String
  display : ValueDisplay
  isValid : Bool
  message : String
  poMismatch : Option PoMismatch
deriving Repr

/-- Field row renderer, api.js lines 1299 to 1335.  The annotation is
computed independently of the validity status and is suppressed for
PO-side rows both when it is computed and again in the markup. -/
def renderField (po_comparison_results : Option PoComparisonResults)
    (fieldPath : String) (extractedData : JSValue)
    (issues : Option (List (String × String))) (label : String)
    (isPoField : Bool) : FieldRow :=
  let value := getNestedValue extractedData fieldPath
  let status := getFieldStatus po_comparison_results fieldPath issues
  let poMismatch :=
    if isPoField then none
    else poMismatchLookup po_comparison_results fieldPath
  ⟨fieldPath, label, renderValueDisplay value, status.isValid,
    status.message, poMismatch⟩

/-- Predicate of the `find` in api.js lines 1341 to 1343:
`m.type === 'item_value_mismatch' && m.item_index === index`. -/
def isItemValueMismatchAt (index : Nat) : LineItemDetail → Bool
  | .item_value_mismatch j _ => j == index
  | _ => false

/-- The optional chain
`po_comparison_results?.mismatched_fields?.line_item_details`. -/
def lineItemDetailsOf
    (po_comparison_results : Option PoComparisonResults) :
    Option (List LineItemDetail) :=
  match po_comparison_results with
  | some pc =>
    match pc.mismatched_fields with
    | some mf => mf.line_item_details
    | none => none
  | none => none

/-- The `find` of api.js lines 1341 to 1343, returning the mismatch map
of the first matching record. -/
def findItemValueMismatch
    (po_comparison_results : Option PoComparisonResults) (index : Nat) :
    Option (List (String × ItemMismatch)) :=
  match lineItemDetailsOf po_comparison_results with
  | some ds =>
    match ds.find? (isItemValueMismatchAt index) with
    | some (.item_value_mismatch _ mismatches) => some mismatches
    | _ => none
  | none => none

/-- `lineItemKeysToDisplay`, api.js lines 1354 to 1357. -/
def lineItemKeysToDisplay : List String :=
  ["description", "quantity", "unit_price", "total_line_amount",
   "item_tax_rate", "item_amount_of_tax_charged", "hsn_sac_code",
   "quantity_code"]

/-- Content of one rendered line-item cell: either the mismatch display
carrying both values and the issue note, or the plain value. -/
inductive CellContent where
  | mismatch (m : ItemMismatch)
  | plain (v : JSValue)
deriving Repr

/-- One row of the line-item table. -/
structure LineItemRow where
  index : Nat
  overallValid : Bool
  cells : List (String × CellContent)
deriving Repr

/-- The test `value === undefined`. -/
def isUndefinedVal : JSValue → Bool
  | .undefined => true
  | _ => false

/-- Line-item row renderer, api.js lines 1337 to 1396.  A key whose
value on the item is `undefined` is skipped outright, through
`if (value === undefined) return null`, even when the mismatch map
mentions that key. -/
def renderLineItem (po_comparison_results : Option PoComparisonResults)
    (item : JSValue) (index : Nat) : LineItemRow :=
  let found := findItemValueMismatch po_comparison_results index
  let itemOverallValid := found.isNone
  let itemMismatchDetails := found.getD []
  let cells := lineItemKeysToDisplay.filterMap fun key =>
    let value := getProp item key
    if isUndefinedVal value then none
    else
      match itemMismatchDetails.lookup key with
      | some m => some (key, CellContent.mismatch m)
      | none => some (key, CellContent.plain value)
  ⟨index, itemOverallValid, cells⟩

/-- The summary block of a validation payload, display strings only. -/
structure SummaryData where
  invoice_number : Option String
  selected_checklist_option : Option String
  overall_invoice_validation_status : Option String
  overall_po_comparison_status : Option String
  summary_message : Option String
deriving Repr

/-- The payload members the detail view destructures
(api.js lines 1277 to 1283). -/
structure ValidationData where
  summary : Option SummaryData
  extracted_invoice_data : JSValue
  invoice_validation_issues : Option (List (String × String))
  extracted_po_data : JSValue
  po_comparison_results : Option PoComparisonResults
deriving Repr

/-- `invoiceFieldsToDisplay`, api.js lines 1400 to 1423. -/
def invoiceFieldsToDisplay : List (String × String) :=
  [("invoice_number", "Invoice Number"),
   ("invoice_date", "Invoice Date"),
   ("po_number_extracted", "PO Number (from Invoice)"),
   ("bond_lut_number", "BOND/LUT No."),
   ("supplier_details.name", "Supplier Name"),
   ("supplier_details.address", "Supplier Address"),
   ("supplier_details.gstin", "Supplier GSTIN"),
   ("recipient_details.name", "Recipient Name"),
   ("recipient_details.address", "Recipient Address"),
   ("recipient_details.gstin", "Recipient GSTIN"),
   ("delivery_address", "Delivery Address"),
   ("hsn_sac_code", "HSN/SAC Code"),
   ("quantity_code", "Overall Quantity Code"),
   ("total_value_of_supply", "Total Value of Supply"),
   ("taxable_value_of_supply", "Taxable Value of Supply"),
   ("tax_rate", "Overall Tax Rate"),
   ("amount_of_tax_charged", "Amount of Tax Charged"),
   ("place_of_supply", "Place of Supply"),
   ("delivery_address_different", "Delivery Address Different"),
   ("tax_payable_on_reverse_charge", "Tax Payable on Reverse Charge"),
   ("manual_digital_signature", "Manual/Digital Signature"),
   ("remarks", "Remarks")]

/-- `poFieldsToDisplay`, api.js lines 1425 to 1450. -/
def poFieldsToDisplay : List (String × String) :=
  [("po_number", "PO Number"),
   ("po_date", "PO Date"),
   ("invoice_number", "Invoice Number (from PO)"),
   ("invoice_date", "Invoice Date (from PO)"),
   ("bond_lut_number", "BOND/LUT No."),
   ("supplier_details.name", "Supplier Name"),
   ("supplier_details.address", "Supplier Address"),
   ("supplier_details.gstin", "Supplier GSTIN"),
   ("recipient_details.name", "Recipient Name"),
   ("recipient_details.address", "Recipient Address"),
   ("recipient_details.gstin", "Recipient GSTIN"),
   ("delivery_address", "Delivery Address"),
   ("hsn_sac_code", "HSN/SAC Code"),
   ("quantity_code", "Overall Quantity Code"),
   ("total_amount", "PO Total Amount"),
   ("total_value_of_supply", "Total Value of Supply (from PO)"),
   ("taxable_value_of_supply", "Taxable Value of Supply (from PO)"),
   ("tax_rate", "Overall Tax Rate (from PO)"),
   ("amount_of_tax_charged", "Amount of Tax Charged (from PO)"),
   ("place_of_supply", "Place of Supply (from PO)"),
   ("delivery_address_different", "Delivery Address Different (from PO)"),
   ("tax_payable_on_reverse_charge",
     "Tax Payable on Reverse Charge (from PO)"),
   ("manual_digital_signature", "Manual/Digital Signature (from PO)"),
   ("remarks", "Remarks (from PO)")]

/-- The per-field issues object built for PO rows (api.js lines 1591 to
1595): fold over `missing_in_po`, binding the field path to the message
"Missing in PO." whenever it occurs; an absent chain falls back to the
empty object through `|| \x7b\x7d`. -/
def poFieldIssues (po_comparison_results : Option PoComparisonResults)
    (fieldPath : String) : Option (List (String × String)) :=
  match po_comparison_results with
  | some pc =>
    match pc.missing_in_po with
    | some mip =>
      some (mip.foldl
        (fun acc p =>
          if p == fieldPath then acc ++ [(fieldPath, "Missing in PO.")]
          else acc)
        [])
    | none => some []
  | none => some []

/-- `Object.keys(mismatched_fields).length`; the reserved
`line_item_details` key counts when present. -/
def mismatchedFieldsKeyCount (mf : MismatchedFields) : Nat :=
  mf.entries.length + (if mf.line_item_details.isSome then 1 else 0)

/-- Condition guarding the detailed-mismatch discrepancy block
(api.js line 1493). -/
def mismatchedBlockShown
    (po_comparison_results : Option PoComparisonResults) : Bool :=
  match po_comparison_results with
  | some pc =>
    match pc.mismatched_fields with
    | some mf => decide (0 < mismatchedFieldsKeyCount mf)
    | none => false
  | none => false

/-- Condition guarding the missing-in-invoice discrepancy block
(api.js line 1542). -/
def missingInInvoiceShown
    (po_comparison_results : Option PoComparisonResults) : Bool :=
  match po_comparison_results with
  | some pc =>
    match pc.missing_in_invoice with
    | some mii => decide (0 < mii.length)
    | none => false
  | none => false

/-- Condition guarding the missing-in-PO discrepancy block
(api.js line 1552). -/
def missingInPoShown
    (po_comparison_results : Option PoComparisonResults) : Bool :=
  match po_comparison_results with
  | some pc =>
    match pc.missing_in_po with
    | some mip => decide (0 < mip.length)
    | none => false
  | none => false

/-- The `items` sequence of an extracted document, as consumed through
`doc?.items && doc.items.length > 0` and the subsequent `map`. -/
def itemsOf (doc : JSValue) : List JSValue :=
  match getProp doc "items" with
  | .arr elems => elems
  | _ => []

/-- The PO side of the report: either the rendered PO rows and item
table, or the explicit no-PO marker (api.js lines 1585 to 1616). -/
inductive PoSection where
  | rendered (rows : List FieldRow) (itemRows : List LineItemRow)
      (noItemsNote : Bool)
  | noPoMarker
deriving Repr

/-- Report Renderer: the pure projection of the detail view markup
(api.js lines 1453 to 1619) that the claims quantify over. -/
structure Report where
  invoiceRows : List FieldRow
  invoiceItemRows : List LineItemRow
  noInvoiceItemsNote : Bool
  mismatchedBlockPresent : Bool
  missingInInvoiceBlockPresent : Bool
  missingInPoBlockPresent : Bool
  poSection : PoSection
deriving Repr

/-- Rendering of the whole detail view as a pure function of the
fetched payload. -/
def render (vd : ValidationData) : Report :=
  let po := vd.po_comparison_results
  let invoiceRows := invoiceFieldsToDisplay.map fun f =>
    renderField po f.1 vd.extracted_invoice_data
      vd.invoice_validation_issues f.2 false
  let invItems := itemsOf vd.extracted_invoice_data
  let poSection :=
    if jsTruthy vd.extracted_po_data then
      let poRows := poFieldsToDisplay.map fun f =>
        renderField po f.1 vd.extracted_po_data (poFieldIssues po f.1)
          f.2 true
      let poItems := itemsOf vd.extracted_po_data
      PoSection.rendered poRows
        (poItems.mapIdx fun i item => renderLineItem po item i)
        poItems.isEmpty
    else PoSection.noPoMarker
  ⟨invoiceRows,
   invItems.mapIdx fun i item => renderLineItem po item i,
   invItems.isEmpty,
   mismatchedBlockShown po, missingInInvoiceShown po, missingInPoShown po,
   poSection⟩

/-- The three values of the `uploadStep` state (api.js line 535). -/
inductive UploadStep where
  | welcome
  | awaiting_invoice
  | chatting
deriving DecidableEq, Repr

/-- Client state relevant to the upload/chat progression of one session:
the `uploadStep` state variable together with the `invoice_result_id`
recorded on the session.  The result id is set by the backend when an
upload succeeds (mockApi lines 482 to 487) and is never cleared. -/
structure SessionState where
  uploadStep : UploadStep
  resultId : Option String
deriving DecidableEq, Repr

/-- Events affecting `uploadStep` while the same session stays active:
the session-change effect re-running over the current session
(api.js lines 546 to 625), a successful upload (lines 675 to 695),
and a failed upload (lines 697 to 711), whose catch branch leaves
`uploadStep` untouched. -/
inductive SessionEvent where
  | sessionEffect
  | uploadSuccess (rid : String)
  | uploadFailure
deriving DecidableEq, Repr

/-- One transition of the upload/chat state machine, read off the
`setUploadStep` call sites: the effect picks `chatting` exactly when
the session carries an `invoice_result_id` (api.js lines 559 to 581);
a successful upload records the new result id and enters `chatting`
(lines 693 to 695); a failed upload changes neither component. -/
def stepSession (s : SessionState) (e : SessionEvent) : SessionState :=
  match e with
  | .sessionEffect =>
    if s.resultId.isSome then ⟨.chatting, s.resultId⟩
    else ⟨.awaiting_invoice, s.resultId⟩
  | .uploadSuccess rid => ⟨.chatting, some rid⟩
  | .uploadFailure => s

/-- Running a sequence of same-session events. -/
def runSession (s : SessionState) (es : List SessionEvent) : SessionState :=
  es.foldl stepSession s

/-- A transcript message as the ChatWindow state holds it. -/
structure ChatMsg where
  role : String
  msgType : String
  message : String
deriving DecidableEq, Repr

/-- The "Processing your documents..." placeholder appended before the
upload call (api.js line 672). -/
def loadingMsg : ChatMsg :=
  ⟨"assistant", "loading_indicator", "Processing your documents..."⟩

/-- The `file_upload` user message (api.js lines 660 to 666). -/
def userUploadMsg (content : String) : ChatMsg :=
  ⟨"user", "file_upload", content⟩

/-- The `validation_result` assistant message of the success branch
(api.js lines 683 to 689). -/
def validationResultMsg (text : String) : ChatMsg :=
  ⟨"assistant", "validation_result", text⟩

/-- The assistant-style error message built in the catch branch
(api.js lines 699 to 706). -/
def errorMsgObj (err : String) : ChatMsg :=
  ⟨"assistant", "error", "Error processing documents: " ++ err⟩

/-- `prev.filter(m => m.type !== 'loading_indicator')`, the filter both
branches apply before appending their final message. -/
def removeLoading (msgs : List ChatMsg) : List ChatMsg :=
  msgs.filter fun m => m.msgType != "loading_indicator"

/-- Where the awaited steps of `handleModalUploadAndClose` can fail:
persisting the user message can throw before the placeholder exists,
the upload itself can throw, the whole operation can succeed, or the
success-side persistence can throw after the result message is
already placed. -/
inductive UploadOutcome where
  | persistUserMsgFailed (err : String)
  | uploadFailed (err : String)
  | succeeded (resultText : String)
  | succeededPersistFailed (resultText : String) (err : String)
deriving Repr

/-- Message-list effect of `handleModalUploadAndClose`
(api.js lines 646 to 715): the user message is appended, the loading
placeholder is appended once the first persistence step went through,
and both the success and the catch branch replace the placeholder by
filtering it out while appending their final message. -/
def handleModalUploadAndClose (msgs : List ChatMsg) (content : String)
    (outcome : UploadOutcome) : List ChatMsg :=
  let withUser := msgs ++ [userUploadMsg content]
  match outcome with
  | .persistUserMsgFailed err =>
    removeLoading withUser ++ [errorMsgObj err]
  | .uploadFailed err =>
    removeLoading (withUser ++ [loadingMsg]) ++ [errorMsgObj err]
  | .succeeded text =>
    removeLoading (withUser ++ [loadingMsg]) ++ [validationResultMsg text]
  | .succeededPersistFailed text err =>
    removeLoading
        (removeLoading (withUser ++ [loadingMsg])
          ++ [validationResultMsg text])
      ++ [errorMsgObj err]

/-- A selected browser file; only its name matters to the modal. -/
structure UploadFile where
  name : String
deriving DecidableEq, Repr

/-- What a click on the upload button produces: an inline error, or the
`onUpload(invoiceFile, hasPo ? poFile : null, hasPo)` callback call. -/
inductive ClickResult where
  | err (msg : String)
  | call (invoiceFile : UploadFile) (poFile : Option UploadFile)
      (hasPo : Bool)
deriving DecidableEq, Repr

/-- `handleUploadClick` of the upload modal (api.js lines 1058 to
1076): bail out with an inline error when no invoice file is chosen or
when a PO was promised but not chosen, otherwise invoke the callback. -/
def handleUploadClick (invoiceFile poFile : Option UploadFile)
    (hasPo : Bool) : ClickResult :=
  match invoiceFile with
  | none => .err "Please select an invoice file."
  | some inv =>
    if hasPo && poFile.isNone then
      .err "You indicated a PO, but no PO file was selected."
    else .call inv (if hasPo then poFile else none) hasPo

/-- Disabled condition of the upload button (api.js line 1195):
`!invoiceFile || (hasPo && !poFile)`. -/
def uploadButtonDisabled (invoiceFile poFile : Option UploadFile)
    (hasPo : Bool) : Bool :=
  invoiceFile.isNone || (hasPo && poFile.isNone)

/-- A falsy accumulator is a fixed point of the resolver fold, because
`acc && acc[part]` short-circuits on it. -/
theorem foldl_resolveStep_falsy (segs : List String) (v : JSValue)
    (h : jsTruthy v = false) : segs.foldl resolveStep v = v := by
  induction segs with
  | nil => rfl
  | cons k rest ih => simpa [List.foldl_cons, resolveStep, h] using ih

/-- Property access never throws on a truthy receiver, and agrees with
the total access function. -/
theorem getPropE_ok_of_truthy (v : JSValue) (k : String)
    (h : jsTruthy v = true) : getPropE v k = .ok (getProp v k) := by
  cases v <;> simp_all [jsTruthy, getPropE]

/-- The exception-aware resolver fold always succeeds and agrees with
the total fold. -/
theorem foldl_resolveStepE_ok (segs : List String) :
    ∀ v : JSValue,
      segs.foldl resolveStepE (.ok v) = .ok (segs.foldl resolveStep v) := by
  induction segs with
  | nil => intro v; rfl
  | cons k rest ih =>
    intro v
    by_cases h : jsTruthy v = true
    · simp [List.foldl_cons, resolveStepE, resolveStep, h,
        getPropE_ok_of_truthy v k h, ih]
    · have hv : jsTruthy v = false := by
        cases hj : jsTruthy v
        · rfl
        · exact absurd hj h
      simp [List.foldl_cons, resolveStepE, resolveStep, hv, ih]

/-- The resolver never throws: its exception-aware run always returns
`ok` of what the total function returns. -/
theorem getNestedValueE_ok (d : JSValue) (p : String) :
    getNestedValueE d p = .ok (getNestedValue d p) :=
  foldl_resolveStepE_ok _ _

/-- When the resolver comes back `undefined`, the absence condition of
the specification holds. -/
theorem resolve_undef_specAbsent (segs : List String) :
    ∀ d : JSValue, segs.foldl resolveStep d = .undefined →
      specAbsentSegs d segs = true := by
  induction segs with
  | nil =>
    intro d h
    simp only [List.foldl_nil] at h
    subst h
    rfl
  | cons k rest ih =>
    intro d h
    rw [List.foldl_cons] at h
    cases d with
    | obj fields =>
      cases hl : fields.lookup k with
      | some w =>
        have hstep : resolveStep (JSValue.obj fields) k = w := by
          simp [resolveStep, jsTruthy, getProp, hl]
        rw [hstep] at h
        have := ih w h
        simpa [specAbsentSegs, specWalk, hl] using this
      | none =>
        simp [specAbsentSegs, specWalk, hl]
    | undefined => simp [specAbsentSegs, specWalk]
    | null => simp [specAbsentSegs, specWalk]
    | bool b => simp [specAbsentSegs, specWalk]
    | num n => simp [specAbsentSegs, specWalk]
    | str s => simp [specAbsentSegs, specWalk]
    | arr elems => simp [specAbsentSegs, specWalk]

/-- When the absence condition of the specification holds, the resolver
returns a falsy value, though not necessarily `undefined`. -/
theorem specAbsent_result_falsy (segs : List String) :
    ∀ d : JSValue, specAbsentSegs d segs = true →
      jsTruthy (segs.foldl resolveStep d) = false := by
  induction segs with
  | nil =>
    intro d h
    cases d <;> simp_all [specAbsentSegs, specWalk, jsTruthy]
  | cons k rest ih =>
    intro d h
    rw [List.foldl_cons]
    cases d with
    | obj fields =>
      cases hl : fields.lookup k with
      | some w =>
        have hstep : resolveStep (JSValue.obj fields) k = w := by
          simp [resolveStep, jsTruthy, getProp, hl]
        rw [hstep]
        exact ih w (by simpa [specAbsentSegs, specWalk, hl] using h)
      | none =>
        have hstep : resolveStep (JSValue.obj fields) k = .undefined := by
          simp [resolveStep, jsTruthy, getProp, hl]
        rw [hstep, foldl_resolveStep_falsy rest JSValue.undefined rfl]
        rfl
    | undefined =>
      rw [show resolveStep JSValue.undefined k = JSValue.undefined from rfl,
        foldl_resolveStep_falsy rest JSValue.undefined rfl]
      rfl
    | null =>
      rw [show resolveStep JSValue.null k = JSValue.null from rfl,
        foldl_resolveStep_falsy rest JSValue.null rfl]
      rfl
    | bool b =>
      cases b with
      | false =>
        rw [show resolveStep (JSValue.bool false) k = JSValue.bool false
            from rfl, foldl_resolveStep_falsy rest (JSValue.bool false) rfl]
        rfl
      | true =>
        rw [show resolveStep (JSValue.bool true) k = JSValue.undefined
            from rfl, foldl_resolveStep_falsy rest JSValue.undefined rfl]
        rfl
    | num n =>
      by_cases hn : n = 0
      · subst hn
        rw [show resolveStep (JSValue.num 0) k = JSValue.num 0 from rfl,
          foldl_resolveStep_falsy rest (JSValue.num 0) rfl]
        rfl
      · have hstep : resolveStep (JSValue.num n) k = JSValue.undefined := by
          simp [resolveStep, jsTruthy, getProp, hn]
        rw [hstep, foldl_resolveStep_falsy rest JSValue.undefined rfl]
        rfl
    | str s =>
      by_cases hs : s = ""
      · subst hs
        rw [show resolveStep (JSValue.str "") k = JSValue.str "" from rfl,
          foldl_resolveStep_falsy rest (JSValue.str "") rfl]
        rfl
      · have hstep : resolveStep (JSValue.str s) k = JSValue.undefined := by
          simp [resolveStep, jsTruthy, getProp, hs]
        rw [hstep, foldl_resolveStep_falsy rest JSValue.undefined rfl]
        rfl
    | arr elems =>
      rw [show resolveStep (JSValue.arr elems) k = JSValue.undefined from rfl,
        foldl_resolveStep_falsy rest JSValue.undefined rfl]
      rfl

/-- C2 (amended): the resolver never raises — its exception-aware run
always succeeds and agrees with the total function — and absence is
characterised one-sidedly: an undefined result implies the absence
condition of the specification, while the absence condition only
guarantees a falsy result, because a falsy intermediate value (null,
empty string, zero, false) is returned unchanged by `acc && acc[part]`
instead of becoming absent. -/
theorem getNestedValue_absent_characterisation (d : JSValue) (p : String) :
    getNestedValueE d p = Except.ok (getNestedValue d p)
    ∧ (getNestedValue d p = JSValue.undefined → specAbsent d p = true)
    ∧ (specAbsent d p = true → jsTruthy (getNestedValue d p) = false) :=
  ⟨getNestedValueE_ok d p,
   fun h => resolve_undef_specAbsent (splitDot p) d h,
   fun h => specAbsent_result_falsy (splitDot p) d h⟩

/-- Witness for C2 at the empty document and the path "a.b", where the
resolver indeed returns the undefined value. -/
theorem getNestedValue_absent_characterisation_witness :
    specAbsent (JSValue.obj []) "a.b" = true
    ∧ jsTruthy (getNestedValue (JSValue.obj []) "a.b") = false :=
  ⟨(getNestedValue_absent_characterisation (JSValue.obj []) "a.b").2.1 rfl,
   (getNestedValue_absent_characterisation (JSValue.obj []) "a.b").2.2
     ((getNestedValue_absent_characterisation (JSValue.obj []) "a.b").2.1
       rfl)⟩

/-- C2 counterexample: for the document binding "a" to the number 0 and
the path "a.b", the segment "a" does not lead to a mapping, so the
claimed equivalence demands an absent result, yet the resolver returns
the falsy leaf 0 rather than the absent value. -/
theorem getNestedValue_spec_iff_fails :
    specAbsent (JSValue.obj [("a", JSValue.num 0)]) "a.b" = true
    ∧ getNestedValue (JSValue.obj [("a", JSValue.num 0)]) "a.b"
        = JSValue.num 0
    ∧ isUndefinedVal (getNestedValue (JSValue.obj [("a", JSValue.num 0)]) "a.b")
        = false := ⟨rfl, rfl, rfl⟩

/-- C1 (amended): every issues-map entry carrying a non-empty message
makes the evaluator report invalid with exactly that message, whatever
the PO comparison results hold. -/
theorem getFieldStatus_issue_precedence
    (po : Option PoComparisonResults) (fieldPath : String)
    (entries : List (String × String)) (msg : String)
    (hfind : entries.lookup fieldPath = some msg) (hne : msg ≠ "") :
    getFieldStatus po fieldPath (some entries) = ⟨false, msg⟩ := by
  have hmsg : lookupTruthyMessage (some entries) fieldPath = some msg := by
    simp [lookupTruthyMessage, hfind, hne]
  simp [getFieldStatus, hmsg]

/-- Witness for C1 at a field whose path also sits in both
`missing_in_invoice` and `mismatched_fields`: the issues-map message
still wins. -/
theorem getFieldStatus_issue_precedence_witness :
    getFieldStatus
        (some ⟨some false,
          some ⟨[("hsn_sac_code", ⟨JSValue.num 1, JSValue.num 2⟩)], none⟩,
          some ["hsn_sac_code"], some []⟩)
        "hsn_sac_code" (some [("hsn_sac_code", "Missing required field")])
      = ⟨false, "Missing required field"⟩ :=
  getFieldStatus_issue_precedence _ "hsn_sac_code" _ "Missing required field"
    rfl (by decide)

/-- C1 counterexample: an issues-map entry whose stored message is the
empty string is falsy in the `issues && issues[fieldPath]` test, so the
evaluator skips it and reports the field valid instead of invalid with
that stored message. -/
theorem getFieldStatus_empty_message_ignored :
    getFieldStatus none "hsn_sac_code" (some [("hsn_sac_code", "")])
      = ⟨true, "Present and valid"⟩ := rfl

/-- C3 (amended): rendering is total and per-row — a field list always
produces one row per field and a lookup through a missing parent never
throws — but the degradation differs from the claim: a row whose
resolved value is `null` or the empty string shows the
"Not Extracted / N/A" marker, while a row whose value is absent
(undefined) shows the literal text "undefined". -/
theorem renderField_defensive
    (po : Option PoComparisonResults) (doc : JSValue)
    (issues : Option (List (String × String)))
    (fields : List (String × String)) (path label : String)
    (isPo : Bool) :
    getNestedValueE doc path = Except.ok (getNestedValue doc path)
    ∧ (getNestedValue doc path = JSValue.undefined →
        (renderField po path doc issues label isPo).display
          = ValueDisplay.text "undefined")
    ∧ (isNullOrEmptyString (getNestedValue doc path) = true →
        (renderField po path doc issues label isPo).display
          = ValueDisplay.notAvailable)
    ∧ (fields.map fun f => renderField po f.1 doc issues f.2 isPo).length
        = fields.length := by
  refine ⟨getNestedValueE_ok doc path, ?_, ?_, by simp⟩
  · intro h
    simp [renderField, renderValueDisplay, h, isNullOrEmptyString,
      isObjectType, jsDisplayString]
  · intro h
    simp [renderField, renderValueDisplay, h]

/-- Witness for C3: an absent value renders as the text "undefined" and
an explicit empty string renders as the availability marker. -/
theorem renderField_defensive_witness :
    (renderField none "supplier_details.name" (JSValue.obj []) none
        "Supplier Name" false).display = ValueDisplay.text "undefined"
    ∧ (renderField none "delivery_address"
        (JSValue.obj [("delivery_address", JSValue.str "")]) none
        "Delivery Address" false).display = ValueDisplay.notAvailable :=
  ⟨(renderField_defensive none (JSValue.obj []) none [] "supplier_details.name"
      "Supplier Name" false).2.1 rfl,
   (renderField_defensive none
      (JSValue.obj [("delivery_address", JSValue.str "")]) none []
      "delivery_address" "Delivery Address" false).2.2.1 rfl⟩

/-- C3 counterexample: when the nested supplier_details block is
missing, the Supplier Name row shows the literal text "undefined"
(the JS `String(undefined)`), not the "Not Extracted / N/A" marker the
claim promises — the marker test covers only `null` and the empty
string. -/
theorem renderField_missing_block_shows_undefined :
    (renderField none "supplier_details.name"
        (JSValue.obj [("invoice_number", JSValue.str "INV-1")]) none
        "Supplier Name" false).display = ValueDisplay.text "undefined"
    ∧ showsNotAvailable (renderField none "supplier_details.name"
        (JSValue.obj [("invoice_number", JSValue.str "INV-1")]) none
        "Supplier Name" false).display = false := ⟨rfl, rfl⟩

/-- C6: an invoice-side row whose path is bound in `mismatched_fields`
carries the cross-document annotation with both stored values, whatever
the issues map and hence whatever the validity status; a PO-side row
never carries the annotation. -/
theorem renderField_cross_document_note (pc : PoComparisonResults)
    (mf : MismatchedFields) (e : PoMismatch) (fieldPath : String)
    (doc : JSValue) (issues issues2 : Option (List (String × String)))
    (label : String)
    (hmf : pc.mismatched_fields = some mf)
    (hentry : mf.entries.lookup fieldPath = some e) :
    (renderField (some pc) fieldPath doc issues label false).poMismatch
      = some e
    ∧ (renderField (some pc) fieldPath doc issues2 label false).poMismatch
        = some e
    ∧ ∀ (po : Option PoComparisonResults) (p : String) (d : JSValue)
        (iss : Option (List (String × String))) (lb : String),
        (renderField po p d iss lb true).poMismatch = none := by
  refine ⟨?_, ?_, ?_⟩
  · simp [renderField, poMismatchLookup, hmf, hentry]
  · simp [renderField, poMismatchLookup, hmf, hentry]
  · intro po p d iss lb
    simp [renderField]

/-- Witness for C6: the annotation is attached both when the checklist
row is invalid (an issues entry exists) and when it is valid. -/
theorem renderField_cross_document_note_witness :
    (renderField
        (some ⟨some false,
          some ⟨[("total_value_of_supply",
            ⟨JSValue.num 1500, JSValue.num 1200⟩)], none⟩, none, none⟩)
        "total_value_of_supply" (JSValue.obj [])
        (some [("total_value_of_supply", "Bad total")])
        "Total Value of Supply" false).poMismatch
      = some ⟨JSValue.num 1500, JSValue.num 1200⟩
    ∧ (renderField
        (some ⟨some false,
          some ⟨[("total_value_of_supply",
            ⟨JSValue.num 1500, JSValue.num 1200⟩)], none⟩, none, none⟩)
        "total_value_of_supply" (JSValue.obj []) none
        "Total Value of Supply" false).poMismatch
      = some ⟨JSValue.num 1500, JSValue.num 1200⟩ :=
  ⟨(renderField_cross_document_note
      ⟨some false, some ⟨[("total_value_of_supply",
        ⟨JSValue.num 1500, JSValue.num 1200⟩)], none⟩, none, none⟩
      ⟨[("total_value_of_supply", ⟨JSValue.num 1500, JSValue.num 1200⟩)],
        none⟩
      ⟨JSValue.num 1500, JSValue.num 1200⟩ "total_value_of_supply"
      (JSValue.obj []) (some [("total_value_of_supply", "Bad total")]) none
      "Total Value of Supply" rfl rfl).1,
   (renderField_cross_document_note
      ⟨some false, some ⟨[("total_value_of_supply",
        ⟨JSValue.num 1500, JSValue.num 1200⟩)], none⟩, none, none⟩
      ⟨[("total_value_of_supply", ⟨JSValue.num 1500, JSValue.num 1200⟩)],
        none⟩
      ⟨JSValue.num 1500, JSValue.num 1200⟩ "total_value_of_supply"
      (JSValue.obj []) (some [("total_value_of_supply", "Bad total")]) none
      "Total Value of Supply" rfl rfl).2.1⟩

/-- Lookup distributes over append, first binding winning. -/
theorem lookup_append_first {β : Type} (l₁ l₂ : List (String × β))
    (k : String) :
    (l₁ ++ l₂).lookup k
      = match l₁.lookup k with
        | some v => some v
        | none => l₂.lookup k := by
  induction l₁ with
  | nil => simp [List.lookup]
  | cons hd tl ih =>
    obtain ⟨a, b⟩ := hd
    by_cases h : (k == a) = true
    · simp [List.lookup, h]
    · simp [List.lookup, h, ih]

/-- Lookup in the object folded from `missing_in_po`: the path is bound
to "Missing in PO." exactly when it occurs in the list, given the
starting accumulator does not bind it. -/
theorem poFieldIssues_fold_lookup (fieldPath : String)
    (mip : List String) :
    ∀ acc : List (String × String),
      (mip.foldl
        (fun acc p =>
          if p == fieldPath then acc ++ [(fieldPath, "Missing in PO.")]
          else acc)
        acc).lookup fieldPath
        = match acc.lookup fieldPath with
          | some v => some v
          | none =>
            if fieldPath ∈ mip then some "Missing in PO." else none := by
  induction mip with
  | nil =>
    intro acc
    cases h : acc.lookup fieldPath <;> simp [h]
  | cons p rest ih =>
    intro acc
    rw [List.foldl_cons]
    by_cases hp : (p == fieldPath) = true
    · rw [if_pos hp, ih (acc ++ [(fieldPath, "Missing in PO.")]),
        lookup_append_first]
      have hpe : p = fieldPath := by simpa using hp
      cases h : acc.lookup fieldPath with
      | some v => simp [h]
      | none => simp [h, List.lookup, hpe]
    · rw [if_neg hp, ih acc]
      have hpe : ¬ p = fieldPath := by simpa using hp
      cases h : acc.lookup fieldPath with
      | some v => simp [h]
      | none =>
        simp only [h]
        have hne : fieldPath ≠ p := fun he => hpe he.symm
        by_cases hm : fieldPath ∈ rest <;> simp [List.mem_cons, hm, hne]

/-- The truthy issues lookup on the folded PO issues object. -/
theorem poFieldIssues_truthy_lookup (pc : PoComparisonResults)
    (mip : List String) (fieldPath : String)
    (h : pc.missing_in_po = some mip) :
    lookupTruthyMessage (poFieldIssues (some pc) fieldPath) fieldPath
      = if fieldPath ∈ mip then some "Missing in PO." else none := by
  simp only [poFieldIssues, h, lookupTruthyMessage]
  rw [poFieldIssues_fold_lookup fieldPath mip []]
  by_cases hm : fieldPath ∈ mip <;> simp [hm, List.lookup]

/-- C4 (amended): the missing-in-invoice penalty is keyed only to the
issues lookup failing, not to the side of the row: an invoice-side row
with no truthy issues entry whose path sits in `missing_in_invoice` is
invalid with the missing-in-invoice reason; a PO-side row whose path
sits in `missing_in_po` is invalid with the "Missing in PO." reason
built from the fold; but a PO-side row whose path sits in
`missing_in_invoice` and not in `missing_in_po` is also marked invalid
with the missing-in-invoice reason, because `getFieldStatus` never
consults `isPoField`; an invoice-side row with no issues entry and a
path in neither list is valid. -/
theorem missing_in_invoice_penalty (pc : PoComparisonResults)
    (mii mip : List String) (doc : JSValue)
    (issues : Option (List (String × String))) (fieldPath label : String)
    (hmii : pc.missing_in_invoice = some mii)
    (hmip : pc.missing_in_po = some mip) :
    (lookupTruthyMessage issues fieldPath = none → fieldPath ∈ mii →
      (renderField (some pc) fieldPath doc issues label false).isValid
          = false
        ∧ (renderField (some pc) fieldPath doc issues label false).message
          = "Missing in invoice (as per PO comparison).")
    ∧ (fieldPath ∈ mip →
        (renderField (some pc) fieldPath doc
            (poFieldIssues (some pc) fieldPath) label true).isValid = false
        ∧ (renderField (some pc) fieldPath doc
            (poFieldIssues (some pc) fieldPath) label true).message
          = "Missing in PO.")
    ∧ (fieldPath ∉ mip → fieldPath ∈ mii →
        (renderField (some pc) fieldPath doc
            (poFieldIssues (some pc) fieldPath) label true).isValid = false
        ∧ (renderField (some pc) fieldPath doc
            (poFieldIssues (some pc) fieldPath) label true).message
          = "Missing in invoice (as per PO comparison).")
    ∧ (lookupTruthyMessage issues fieldPath = none → fieldPath ∉ mii →
        (renderField (some pc) fieldPath doc issues label false).isValid
          = true) := by
  refine ⟨?_, ?_, ?_, ?_⟩
  · intro hno hmem
    constructor <;> simp [renderField, getFieldStatus, hno, hmii, hmem]
  · intro hmem
    have hl := poFieldIssues_truthy_lookup pc mip fieldPath hmip
    rw [if_pos hmem] at hl
    constructor <;> simp [renderField, getFieldStatus, hl]
  · intro hnot hmem
    have hl := poFieldIssues_truthy_lookup pc mip fieldPath hmip
    rw [if_neg hnot] at hl
    constructor <;> simp [renderField, getFieldStatus, hl, hmii, hmem]
  · intro hno hnot
    simp [renderField, getFieldStatus, hno, hmii, hnot]

/-- Witness for C4: one comparison result with "invoice_number" missing
in the invoice and "total_amount" missing in the PO, exercising all
four clauses. -/
theorem missing_in_invoice_penalty_witness :
    ((renderField
        (some ⟨some false, none, some ["invoice_number"],
          some ["total_amount"]⟩) "invoice_number" (JSValue.obj []) none
        "Invoice Number" false).isValid = false
      ∧ (renderField
          (some ⟨some false, none, some ["invoice_number"],
            some ["total_amount"]⟩) "invoice_number" (JSValue.obj []) none
          "Invoice Number" false).message
        = "Missing in invoice (as per PO comparison).")
    ∧ ((renderField
        (some ⟨some false, none, some ["invoice_number"],
          some ["total_amount"]⟩) "total_amount" (JSValue.obj [])
        (poFieldIssues
          (some ⟨some false, none, some ["invoice_number"],
            some ["total_amount"]⟩) "total_amount")
        "PO Total Amount" true).isValid = false
      ∧ (renderField
          (some ⟨some false, none, some ["invoice_number"],
            some ["total_amount"]⟩) "total_amount" (JSValue.obj [])
          (poFieldIssues
            (some ⟨some false, none, some ["invoice_number"],
              some ["total_amount"]⟩) "total_amount")
          "PO Total Amount" true).message = "Missing in PO.")
    ∧ ((renderField
        (some ⟨some false, none, some ["invoice_number"],
          some ["total_amount"]⟩) "total_value_of_supply" (JSValue.obj [])
        none "Total Value of Supply" false).isValid = true) :=
  ⟨(missing_in_invoice_penalty
      ⟨some false, none, some ["invoice_number"], some ["total_amount"]⟩
      ["invoice_number"] ["total_amount"] (JSValue.obj []) none
      "invoice_number" "Invoice Number" rfl rfl).1 rfl (by decide),
   (missing_in_invoice_penalty
      ⟨some false, none, some ["invoice_number"], some ["total_amount"]⟩
      ["invoice_number"] ["total_amount"] (JSValue.obj []) none
      "total_amount" "PO Total Amount" rfl rfl).2.1 (by decide),
   (missing_in_invoice_penalty
      ⟨some false, none, some ["invoice_number"], some ["total_amount"]⟩
      ["invoice_number"] ["total_amount"] (JSValue.obj []) none
      "total_value_of_supply" "Total Value of Supply" rfl rfl).2.2.2 rfl
      (by decide)⟩

/-- C4 counterexample: a PO-side row (isPoField true) whose path is in
`missing_in_invoice` while absent from `missing_in_po` is marked
invalid with the missing-in-invoice reason — the claim says PO-side
rows are never penalised through `missing_in_invoice`. -/
theorem po_row_gets_missing_in_invoice_penalty :
    (renderField (some ⟨some false, none, some ["invoice_number"], some []⟩)
        "invoice_number"
        (JSValue.obj [("invoice_number", JSValue.str "INV-9")])
        (poFieldIssues
          (some ⟨some false, none, some ["invoice_number"], some []⟩)
          "invoice_number")
        "Invoice Number (from PO)" true).isValid = false
    ∧ (renderField
        (some ⟨some false, none, some ["invoice_number"], some []⟩)
        "invoice_number"
        (JSValue.obj [("invoice_number", JSValue.str "INV-9")])
        (poFieldIssues
          (some ⟨some false, none, some ["invoice_number"], some []⟩)
          "invoice_number")
        "Invoice Number (from PO)" true).message
      = "Missing in invoice (as per PO comparison)." := ⟨rfl, rfl⟩

/-- C5 (amended): the first `item_value_mismatch` record found for an
index flags exactly that row, and within the row every key of its
mismatches map that the item actually carries (its value is not
undefined) among the displayed keys is rendered as a mismatch cell; a
key the item lacks is skipped outright; a row whose index matches no
record receives no flag. -/
theorem renderLineItem_flags (po : Option PoComparisonResults)
    (ds : List LineItemDetail) (ms : List (String × ItemMismatch))
    (item : JSValue) (index : Nat)
    (hds : lineItemDetailsOf po = some ds)
    (hfind : ds.find? (isItemValueMismatchAt index)
      = some (LineItemDetail.item_value_mismatch index ms)) :
    (renderLineItem po item index).overallValid = false
    ∧ (∀ key m, key ∈ lineItemKeysToDisplay → ms.lookup key = some m →
        isUndefinedVal (getProp item key) = false →
        (key, CellContent.mismatch m) ∈ (renderLineItem po item index).cells)
    ∧ (∀ j, (∀ d ∈ ds, isItemValueMismatchAt j d = false) →
        (renderLineItem po item j).overallValid = true) := by
  have hf : findItemValueMismatch po index = some ms := by
    simp [findItemValueMismatch, hds, hfind]
  refine ⟨?_, ?_, ?_⟩
  · simp [renderLineItem, hf]
  · intro key m hkey hlook hdef
    show (key, CellContent.mismatch m) ∈ (renderLineItem po item index).cells
    simp only [renderLineItem, hf, Option.getD_some]
    refine List.mem_filterMap.2 ⟨key, hkey, ?_⟩
    simp [hdef, hlook]
  · intro j hnone
    have hj : ds.find? (isItemValueMismatchAt j) = none := by
      rw [List.find?_eq_none]
      intro d hd
      simp [hnone d hd]
    simp [renderLineItem, findItemValueMismatch, hds, hj]

/-- Witness for C5 with a single mismatch record at index 0: row 0 is
flagged with a mismatch cell on quantity, and row 1 stays clean. -/
theorem renderLineItem_flags_witness :
    (renderLineItem
        (some ⟨some false, some ⟨[],
          some [LineItemDetail.item_value_mismatch 0
            [("quantity",
              ⟨JSValue.num 2, JSValue.num 3, some "quantity_mismatch"⟩)]]⟩,
          none, none⟩)
        (JSValue.obj [("description", JSValue.str "Widget"),
          ("quantity", JSValue.num 2)]) 0).overallValid = false
    ∧ ("quantity", CellContent.mismatch
          ⟨JSValue.num 2, JSValue.num 3, some "quantity_mismatch"⟩)
        ∈ (renderLineItem
            (some ⟨some false, some ⟨[],
              some [LineItemDetail.item_value_mismatch 0
                [("quantity",
                  ⟨JSValue.num 2, JSValue.num 3,
                    some "quantity_mismatch"⟩)]]⟩, none, none⟩)
            (JSValue.obj [("description", JSValue.str "Widget"),
              ("quantity", JSValue.num 2)]) 0).cells
    ∧ (renderLineItem
        (some ⟨some false, some ⟨[],
          some [LineItemDetail.item_value_mismatch 0
            [("quantity",
              ⟨JSValue.num 2, JSValue.num 3, some "quantity_mismatch"⟩)]]⟩,
          none, none⟩)
        (JSValue.obj [("description", JSValue.str "Widget"),
          ("quantity", JSValue.num 2)]) 1).overallValid = true := by
  have h := renderLineItem_flags
    (some ⟨some false, some ⟨[],
      some [LineItemDetail.item_value_mismatch 0
        [("quantity",
          ⟨JSValue.num 2, JSValue.num 3, some "quantity_mismatch"⟩)]]⟩,
      none, none⟩)
    [LineItemDetail.item_value_mismatch 0
      [("quantity", ⟨JSValue.num 2, JSValue.num 3,
        some "quantity_mismatch"⟩)]]
    [("quantity", ⟨JSValue.num 2, JSValue.num 3, some "quantity_mismatch"⟩)]
    (JSValue.obj [("description", JSValue.str "Widget"),
      ("quantity", JSValue.num 2)]) 0 rfl rfl
  refine ⟨h.1, ?_, ?_⟩
  · exact h.2.1 "quantity"
      ⟨JSValue.num 2, JSValue.num 3, some "quantity_mismatch"⟩
      (by decide) rfl rfl
  · refine h.2.2 1 ?_
    intro d hd
    rcases List.mem_singleton.1 hd with rfl
    rfl

/-- C5 counterexample: the record at index 0 lists a quantity mismatch,
but the invoice item carries no quantity value, so the row is flagged
while the quantity key is skipped entirely and never displayed as
mismatched — against the claim that every key of the mismatches map is
displayed. -/
theorem mismatched_key_skipped_when_value_absent :
    (renderLineItem
        (some ⟨some false, some ⟨[],
          some [LineItemDetail.item_value_mismatch 0
            [("quantity",
              ⟨JSValue.num 2, JSValue.num 3, some "quantity_mismatch"⟩)]]⟩,
          none, none⟩)
        (JSValue.obj [("description", JSValue.str "Widget")]) 0).overallValid
      = false
    ∧ ((renderLineItem
        (some ⟨some false, some ⟨[],
          some [LineItemDetail.item_value_mismatch 0
            [("quantity",
              ⟨JSValue.num 2, JSValue.num 3, some "quantity_mismatch"⟩)]]⟩,
          none, none⟩)
        (JSValue.obj [("description", JSValue.str "Widget")]) 0).cells.all
          fun c => c.1 != "quantity") = true
    ∧ (([("quantity",
          (⟨JSValue.num 2, JSValue.num 3, some "quantity_mismatch"⟩ :
            ItemMismatch))].lookup "quantity").isSome = true) :=
  ⟨rfl, rfl, rfl⟩

/-- C7 (amended): with no extracted PO data the PO section is the
explicit no-PO marker; the discrepancy blocks, however, are keyed to
`po_comparison_results` alone, so they are guaranteed absent only when
the comparison results are absent or carry no mismatched fields and no
missing lists — the shape actually produced for no-PO uploads. -/
theorem no_po_marker_and_notices (vd : ValidationData)
    (pc : PoComparisonResults)
    (hpo : vd.extracted_po_data = JSValue.null) :
    (render vd).poSection = PoSection.noPoMarker
    ∧ (vd.po_comparison_results = none →
        (render vd).mismatchedBlockPresent = false
        ∧ (render vd).missingInInvoiceBlockPresent = false
        ∧ (render vd).missingInPoBlockPresent = false)
    ∧ (vd.po_comparison_results = some pc →
        pc.mismatched_fields = none →
        pc.missing_in_invoice = none →
        pc.missing_in_po = none →
        (render vd).mismatchedBlockPresent = false
        ∧ (render vd).missingInInvoiceBlockPresent = false
        ∧ (render vd).missingInPoBlockPresent = false) := by
  refine ⟨?_, ?_, ?_⟩
  · simp [render, hpo, jsTruthy]
  · intro hnone
    refine ⟨?_, ?_, ?_⟩ <;>
      simp [render, mismatchedBlockShown, missingInInvoiceShown,
        missingInPoShown, hnone]
  · intro hsome h1 h2 h3
    refine ⟨?_, ?_, ?_⟩ <;>
      simp [render, mismatchedBlockShown, missingInInvoiceShown,
        missingInPoShown, hsome, h1, h2, h3]

/-- Witness for C7 on the no-PO payload shape: comparison results carry
only the overall flag and no mismatch or missing members. -/
theorem no_po_marker_and_notices_witness :
    (render ⟨some ⟨some "INV-3", some "option_1_without_igst",
        some "Accepted", some "N/A (No PO Provided)", some "ok"⟩,
      JSValue.obj [("invoice_number", JSValue.str "INV-3")], none,
      JSValue.null,
      some ⟨some true, none, none, none⟩⟩).poSection
      = PoSection.noPoMarker
    ∧ ((render ⟨some ⟨some "INV-3", some "option_1_without_igst",
        some "Accepted", some "N/A (No PO Provided)", some "ok"⟩,
      JSValue.obj [("invoice_number", JSValue.str "INV-3")], none,
      JSValue.null,
      some ⟨some true, none, none, none⟩⟩).mismatchedBlockPresent = false
      ∧ (render ⟨some ⟨some "INV-3", some "option_1_without_igst",
          some "Accepted", some "N/A (No PO Provided)", some "ok"⟩,
        JSValue.obj [("invoice_number", JSValue.str "INV-3")], none,
        JSValue.null,
        some ⟨some true, none, none, none⟩⟩).missingInInvoiceBlockPresent
        = false
      ∧ (render ⟨some ⟨some "INV-3", some "option_1_without_igst",
          some "Accepted", some "N/A (No PO Provided)", some "ok"⟩,
        JSValue.obj [("invoice_number", JSValue.str "INV-3")], none,
        JSValue.null,
        some ⟨some true, none, none, none⟩⟩).missingInPoBlockPresent
        = false) :=
  ⟨(no_po_marker_and_notices
      ⟨some ⟨some "INV-3", some "option_1_without_igst", some "Accepted",
        some "N/A (No PO Provided)", some "ok"⟩,
        JSValue.obj [("invoice_number", JSValue.str "INV-3")], none,
        JSValue.null, some ⟨some true, none, none, none⟩⟩
      ⟨some true, none, none, none⟩ rfl).1,
   (no_po_marker_and_notices
      ⟨some ⟨some "INV-3", some "option_1_without_igst", some "Accepted",
        some "N/A (No PO Provided)", some "ok"⟩,
        JSValue.obj [("invoice_number", JSValue.str "INV-3")], none,
        JSValue.null, some ⟨some true, none, none, none⟩⟩
      ⟨some true, none, none, none⟩ rfl).2.2 rfl rfl rfl rfl⟩

/-- C7 counterexample: a payload with null PO data and status
"N/A (No PO Provided)" whose comparison results still carry a
mismatched field renders the no-PO marker together with a PO
discrepancy notice block — against the claim that zero notices appear
for every such payload. -/
theorem discrepancy_notices_without_po_data :
    (render ⟨some ⟨some "INV-X", some "option_1_without_igst",
        some "Accepted", some "N/A (No PO Provided)", some "msg"⟩,
      JSValue.obj [], none, JSValue.null,
      some ⟨some false,
        some ⟨[("total_value_of_supply",
          ⟨JSValue.num 1500, JSValue.num 1200⟩)], none⟩,
        none, none⟩⟩).poSection = PoSection.noPoMarker
    ∧ (render ⟨some ⟨some "INV-X", some "option_1_without_igst",
        some "Accepted", some "N/A (No PO Provided)", some "msg"⟩,
      JSValue.obj [], none, JSValue.null,
      some ⟨some false,
        some ⟨[("total_value_of_supply",
          ⟨JSValue.num 1500, JSValue.num 1200⟩)], none⟩,
        none, none⟩⟩).mismatchedBlockPresent = true := ⟨rfl, rfl⟩

/-- Once the state is `chatting` with a recorded result id, every
same-session event sequence keeps it `chatting` with a recorded id. -/
theorem runSession_chatting_invariant (es : List SessionEvent) :
    ∀ s : SessionState, s.uploadStep = .chatting →
      s.resultId.isSome = true →
      (runSession s es).uploadStep = .chatting
      ∧ (runSession s es).resultId.isSome = true := by
  induction es with
  | nil => intro s h1 h2; exact ⟨h1, h2⟩
  | cons e rest ih =>
    intro s h1 h2
    have hrun : runSession s (e :: rest) = runSession (stepSession s e) rest :=
      rfl
    rw [hrun]
    cases e with
    | sessionEffect =>
      have hstep : stepSession s .sessionEffect = ⟨.chatting, s.resultId⟩ := by
        simp [stepSession, h2]
      rw [hstep]
      exact ih ⟨.chatting, s.resultId⟩ rfl h2
    | uploadSuccess rid => exact ih ⟨.chatting, some rid⟩ rfl rfl
    | uploadFailure => exact ih s h1 h2

/-- C8: the `awaiting_invoice` to `chatting` transition fires exactly
upon a successful upload, which also records the result id on the
session, and from then on no same-session event — a re-run of the
session effect, a further success or a failure — ever brings the state
back to `awaiting_invoice`: it stays `chatting`. -/
theorem chatting_never_reverts (s : SessionState)
    (es : List SessionEvent) (rid : String)
    (hstep : s.uploadStep = .chatting) (hrid : s.resultId.isSome = true) :
    stepSession ⟨.awaiting_invoice, none⟩ (.uploadSuccess rid)
      = ⟨.chatting, some rid⟩
    ∧ (runSession s es).uploadStep = .chatting
    ∧ (runSession s es).uploadStep ≠ .awaiting_invoice := by
  have h := runSession_chatting_invariant es s hstep hrid
  refine ⟨rfl, h.1, ?_⟩
  rw [h.1]
  intro hcontr
  exact UploadStep.noConfusion hcontr

/-- Witness for C8: from the state reached by a successful upload, a
re-run of the session effect followed by a failed upload and another
effect still shows `chatting`. -/
theorem chatting_never_reverts_witness :
    stepSession ⟨.awaiting_invoice, none⟩ (.uploadSuccess "result-1")
      = ⟨.chatting, some "result-1"⟩
    ∧ (runSession ⟨.chatting, some "result-1"⟩
        [.sessionEffect, .uploadFailure, .sessionEffect]).uploadStep
      = .chatting
    ∧ (runSession ⟨.chatting, some "result-1"⟩
        [.sessionEffect, .uploadFailure, .sessionEffect]).uploadStep
      ≠ .awaiting_invoice :=
  chatting_never_reverts ⟨.chatting, some "result-1"⟩
    [.sessionEffect, .uploadFailure, .sessionEffect] "result-1" rfl rfl

/-- The loading-indicator filter leaves no loading indicator behind. -/
theorem removeLoading_all (l : List ChatMsg) :
    ((removeLoading l).all fun m => m.msgType != "loading_indicator")
      = true := by
  rw [List.all_eq_true]
  intro m hm
  exact (List.mem_filter.1 hm).2

/-- C9: whatever the outcome of the upload operation, the resulting
transcript contains no loading-indicator message, and every failing
outcome ends the transcript with the assistant-style error message. -/
theorem upload_clears_loading_indicator (msgs : List ChatMsg)
    (content text err : String) (outcome : UploadOutcome) :
    ((handleModalUploadAndClose msgs content outcome).all
        fun m => m.msgType != "loading_indicator") = true
    ∧ (handleModalUploadAndClose msgs content
        (.persistUserMsgFailed err)).getLast? = some (errorMsgObj err)
    ∧ (handleModalUploadAndClose msgs content
        (.uploadFailed err)).getLast? = some (errorMsgObj err)
    ∧ (handleModalUploadAndClose msgs content
        (.succeededPersistFailed text err)).getLast?
      = some (errorMsgObj err)
    ∧ (handleModalUploadAndClose msgs content
        (.succeeded text)).getLast? = some (validationResultMsg text) := by
  refine ⟨?_, ?_, ?_, ?_, ?_⟩
  · cases outcome <;>
      simp [handleModalUploadAndClose, List.all_append, removeLoading_all,
        errorMsgObj, validationResultMsg]
  · simp [handleModalUploadAndClose]
  · simp [handleModalUploadAndClose]
  · simp [handleModalUploadAndClose]
  · simp [handleModalUploadAndClose]

/-- C10: the upload-modal click handler invokes the callback only with
a chosen invoice file, passes a chosen PO file exactly when a PO was
promised and the literal null otherwise, and shows an inline error
instead of calling whenever the button-disabling condition holds. -/
theorem handleUploadClick_safe (invoiceFile poFile : Option UploadFile)
    (hasPo : Bool) :
    (∀ inv po hp,
      handleUploadClick invoiceFile poFile hasPo = .call inv po hp →
      invoiceFile = some inv ∧ hp = hasPo
        ∧ (hasPo = true → po.isSome = true)
        ∧ (hasPo = false → po = none))
    ∧ (uploadButtonDisabled invoiceFile poFile hasPo = true →
        ∃ msg, handleUploadClick invoiceFile poFile hasPo = .err msg)
    ∧ (uploadButtonDisabled invoiceFile poFile hasPo = false →
        ∃ inv po,
          handleUploadClick invoiceFile poFile hasPo = .call inv po hasPo)
    := by
  cases invoiceFile with
  | none =>
    refine ⟨?_, ?_, ?_⟩
    · intro inv po hp h
      exact ClickResult.noConfusion h
    · intro _
      exact ⟨"Please select an invoice file.", rfl⟩
    · intro h
      simp [uploadButtonDisabled] at h
  | some inv0 =>
    cases hasPo with
    | false =>
      refine ⟨?_, ?_, ?_⟩
      · intro inv po hp h
        simp only [handleUploadClick, Bool.false_and, if_neg] at h
        cases h
        exact ⟨rfl, rfl, by intro hc; exact Bool.noConfusion hc,
          fun _ => rfl⟩
      · intro h
        simp [uploadButtonDisabled] at h
      · intro _
        exact ⟨inv0, none, rfl⟩
    | true =>
      cases poFile with
      | none =>
        refine ⟨?_, ?_, ?_⟩
        · intro inv po hp h
          simp [handleUploadClick] at h
        · intro _
          exact ⟨"You indicated a PO, but no PO file was selected.", rfl⟩
        · intro h
          simp [uploadButtonDisabled] at h
      | some po0 =>
        refine ⟨?_, ?_, ?_⟩
        · intro inv po hp h
          simp only [handleUploadClick, Option.isNone_some,
            Bool.and_false, if_neg] at h
          cases h
          exact ⟨rfl, rfl, fun _ => rfl,
            by intro hc; exact Bool.noConfusion hc⟩
        · intro h
          simp [uploadButtonDisabled] at h
        · intro _
          exact ⟨inv0, some po0, rfl⟩

/-- Witness for C10: with nothing chosen the click errors out, and with
both files chosen under a promised PO the callback receives the invoice
file and a present PO file. -/
theorem handleUploadClick_safe_witness :
    (∃ msg, handleUploadClick none none false = .err msg)
    ∧ ((some (UploadFile.mk "invoice.pdf") : Option UploadFile)
          = some ⟨"invoice.pdf"⟩
        ∧ true = true
        ∧ (true = true → (some (UploadFile.mk "po.pdf")).isSome = true)
        ∧ (true = false → some (UploadFile.mk "po.pdf") = none)) :=
  ⟨(handleUploadClick_safe none none false).2.1 rfl,
   (handleUploadClick_safe (some ⟨"invoice.pdf"⟩) (some ⟨"po.pdf"⟩)
      true).1 ⟨"invoice.pdf"⟩ (some ⟨"po.pdf"⟩) true rfl⟩

end Mocko
